import Mathlib

/-!
Verification of the healthcare appointment booking system
(modex-healthcare-appointment-system).

The core booking/confirm/cancel/expire transactions are embedded from
`healthcare-backend/backup/Appointment_old.ts` (the transactional,
SQL-backed implementation of the Booking Transaction Coordinator; each
static method runs BEGIN ... COMMIT and issues ROLLBACK in its catch
block, so an operation that throws leaves the database unchanged — the
embedding therefore returns the original database on every error path).
The field-filtering update lives in
`healthcare-backend/src/models/Appointment.ts` (mongoose rewrite), and
the HTTP route handlers in `src/routes/appointments.ts`.
-/

namespace Healthcare

/-- The `slot_status` enum of the `time_slots` table. -/
inductive SlotStatus
  | AVAILABLE
  | BOOKED
  | BLOCKED
deriving DecidableEq, Repr

/-- Appointment status values used by the source
(`PENDING`, `CONFIRMED`, `CANCELLED`, `COMPLETED`). -/
inductive ApptStatus
  | PENDING
  | CONFIRMED
  | CANCELLED
  | COMPLETED
deriving DecidableEq, Repr

/-- Status value rendered into the confirm error message, as the raw SQL
row carries the status as text. -/
def statusName : ApptStatus → String
  | ApptStatus.PENDING => "PENDING"
  | ApptStatus.CONFIRMED => "CONFIRMED"
  | ApptStatus.CANCELLED => "CANCELLED"
  | ApptStatus.COMPLETED => "COMPLETED"

/-- A row of the `time_slots` table (fields touched by the coordinator).
`current_bookings` and `max_capacity` are SQL integers, embedded as `Int`
so that the `GREATEST(current_bookings - 1, 0)` floor is meaningful. -/
structure TimeSlot where
  id : Nat
  doctor_id : Nat
  max_capacity : Int
  current_bookings : Int
  status : SlotStatus
deriving DecidableEq, Repr

/-- A row of the `appointments` table (fields touched by the coordinator).
`expires_at`, and the timestamps generally, are embedded as integer
clock readings. -/
structure Appt where
  id : Nat
  patient_id : Nat
  doctor_id : Nat
  time_slot_id : Nat
  appointment_date : String
  appointment_time : String
  reason_for_visit : String
  consultation_type : String
  status : ApptStatus
  expires_at : Int
  confirmed_at : Option Int
  cancelled_at : Option Int
  payment_status : String
deriving DecidableEq, Repr

/-- A row of the best-effort `appointment_audit_log` table. -/
structure AuditEntry where
  appointment_id : Nat
  action : String
  old_status : Option String
  new_status : Option String
  reason : Option String
deriving DecidableEq, Repr

/-- The error type `AppError(statusCode, message)` from `middleware/errorHandler`. -/
structure AppError where
  statusCode : Nat
  message : String
deriving DecidableEq, Repr

/-- The database state seen by the coordinator: the `time_slots`,
`appointments` and `appointment_audit_log` tables, plus the id sequence
for inserted appointments. -/
structure DB where
  slots : List TimeSlot
  appts : List Appt
  audit : List AuditEntry
  nextApptId : Nat
deriving DecidableEq, Repr

/-- The lookup `SELECT * FROM time_slots WHERE id = $1 AND doctor_id = $2 FOR UPDATE`. -/
def findSlot (db : DB) (time_slot_id doctor_id : Nat) : Option TimeSlot :=
  db.slots.find? (fun s => s.id == time_slot_id && s.doctor_id == doctor_id)

/-- The lookup `SELECT * FROM appointments WHERE id = $1 FOR UPDATE`. -/
def findAppt (db : DB) (appointmentId : Nat) : Option Appt :=
  db.appts.find? (fun a => a.id == appointmentId)

/-- Slot lookup by primary key only (the `UPDATE time_slots ... WHERE id = $1`
in `cancel` matches on id alone). -/
def findSlotById (db : DB) (time_slot_id : Nat) : Option TimeSlot :=
  db.slots.find? (fun s => s.id == time_slot_id)

/-- The duplicate-booking predicate of `Appointment.create`:
`SELECT id FROM appointments WHERE time_slot_id = $1 AND patient_id = $2
AND status != 'CANCELLED'`. -/
def activeFor (time_slot_id patient_id : Nat) (a : Appt) : Bool :=
  a.time_slot_id == time_slot_id && a.patient_id == patient_id &&
    !(a.status == ApptStatus.CANCELLED)

/-- The slot write of `Appointment.create`:
`SET current_bookings = current_bookings + 1, status = CASE WHEN
(current_bookings + 1) >= max_capacity THEN 'BOOKED' ELSE status END`
(SQL UPDATE right-hand sides read the old row). -/
def bookSlotUpdate (s : TimeSlot) : TimeSlot :=
  { s with
    current_bookings := s.current_bookings + 1,
    status :=
      if s.current_bookings + 1 ≥ s.max_capacity then SlotStatus.BOOKED
      else s.status }

/-- The slot write of `Appointment.cancel`:
`SET current_bookings = GREATEST(current_bookings - 1, 0), status = CASE
WHEN (current_bookings - 1) < max_capacity THEN 'AVAILABLE' ELSE status END`. -/
def cancelSlotUpdate (s : TimeSlot) : TimeSlot :=
  { s with
    current_bookings := max (s.current_bookings - 1) 0,
    status :=
      if s.current_bookings - 1 < s.max_capacity then SlotStatus.AVAILABLE
      else s.status }

namespace Appointment

/-- Method `Appointment.create` of `backup/Appointment_old.ts`: the atomic booking
transaction. Checks, in order: slot existence (by id and doctor), slot
status, capacity, duplicate active appointment for (patient, slot); then
inserts a PENDING appointment with
`expires_at = CURRENT_TIMESTAMP + INTERVAL '5 minutes'` (clock in
seconds), increments the slot, and appends the audit row. Every throwing
path hits the catch block's ROLLBACK, so it returns the input database. -/
def create (db : DB) (now : Int)
    (patient_id doctor_id time_slot_id : Nat)
    (appointment_date appointment_time reason_for_visit consultation_type :
      String) :
    Except AppError Appt × DB :=
  match findSlot db time_slot_id doctor_id with
  | none => (Except.error ⟨404, "Time slot not found"⟩, db)
  | some slot =>
    if slot.status ≠ SlotStatus.AVAILABLE then
      (Except.error ⟨400, "This slot is no longer available"⟩, db)
    else if slot.current_bookings ≥ slot.max_capacity then
      (Except.error ⟨400, "This slot is fully booked"⟩, db)
    else if db.appts.any (activeFor time_slot_id patient_id) then
      (Except.error ⟨400, "Patient already has an appointment for this slot"⟩,
        db)
    else
      let appt : Appt :=
        { id := db.nextApptId
          patient_id := patient_id
          doctor_id := doctor_id
          time_slot_id := time_slot_id
          appointment_date := appointment_date
          appointment_time := appointment_time
          reason_for_visit := reason_for_visit
          consultation_type := consultation_type
          status := ApptStatus.PENDING
          expires_at := now + 5 * 60
          confirmed_at := none
          cancelled_at := none
          payment_status := "PENDING" }
      let db' : DB :=
        { db with
          appts := db.appts ++ [appt]
          slots := db.slots.map
            (fun s => if s.id == time_slot_id then bookSlotUpdate s else s)
          audit := db.audit ++
            [⟨appt.id, "CREATED", none, some ("PENDING"), none⟩]
          nextApptId := db.nextApptId + 1 }
      (Except.ok appt, db')

/-- Method `Appointment.confirm` of `backup/Appointment_old.ts`. On an expired
PENDING appointment the source executes its auto-cancel UPDATE and then
throws; the throw lands in the catch block which issues ROLLBACK before
re-throwing, so the auto-cancel is discarded and the database is returned
unchanged (and no slot decrement is attempted on that path). -/
def confirm (db : DB) (now : Int) (appointmentId : Nat) :
    Except AppError Appt × DB :=
  match findAppt db appointmentId with
  | none => (Except.error ⟨404, "Appointment not found"⟩, db)
  | some appointment =>
    if appointment.status ≠ ApptStatus.PENDING then
      (Except.error
        ⟨400, "Cannot confirm appointment with status: " ++
          statusName appointment.status⟩, db)
    else if appointment.expires_at < now then
      (Except.error ⟨400, "Appointment confirmation time has expired"⟩, db)
    else
      let upd := fun (a : Appt) =>
        if a.id == appointmentId then
          { a with
            status := ApptStatus.CONFIRMED
            payment_status := "COMPLETED"
            confirmed_at := some now }
        else a
      let db' : DB :=
        { db with
          appts := db.appts.map upd
          audit := db.audit ++
            [⟨appointmentId, "CONFIRMED", some ("PENDING"),
              some ("CONFIRMED"), none⟩] }
      (Except.ok (upd appointment), db')

/-- Method `Appointment.cancel` of `backup/Appointment_old.ts`: rejects an already
CANCELLED appointment, otherwise sets it CANCELLED, releases the slot via
`cancelSlotUpdate`, and appends the audit row. -/
def cancel (db : DB) (now : Int) (appointmentId : Nat) (reason : String) :
    Except AppError Appt × DB :=
  match findAppt db appointmentId with
  | none => (Except.error ⟨404, "Appointment not found"⟩, db)
  | some appointment =>
    if appointment.status = ApptStatus.CANCELLED then
      (Except.error ⟨400, "Appointment is already cancelled"⟩, db)
    else
      let upd := fun (a : Appt) =>
        if a.id == appointmentId then
          { a with status := ApptStatus.CANCELLED, cancelled_at := some now }
        else a
      let db' : DB :=
        { db with
          appts := db.appts.map upd
          slots := db.slots.map
            (fun s =>
              if s.id == appointment.time_slot_id then cancelSlotUpdate s
              else s)
          audit := db.audit ++
            [⟨appointmentId, "CANCELLED", some (statusName appointment.status),
              some ("CANCELLED"), some reason⟩] }
      (Except.ok (upd appointment), db')

/-- The source's row-eligibility test in `cancelExpiredAppointments`:
`WHERE status = 'PENDING' AND expires_at < CURRENT_TIMESTAMP AND
cancelled_at IS NULL`. -/
def expireEligible (now : Int) (a : Appt) : Bool :=
  a.status == ApptStatus.PENDING && decide (a.expires_at < now) &&
    a.cancelled_at == none

/-- The row write of the sweep's UPDATE:
`SET status = 'CANCELLED', cancelled_at = CURRENT_TIMESTAMP` on eligible
rows, identity elsewhere. -/
def sweepUpdate (now : Int) (a : Appt) : Appt :=
  if expireEligible now a then
    { a with status := ApptStatus.CANCELLED, cancelled_at := some now }
  else a

/-- Method `Appointment.cancelExpiredAppointments` of `backup/Appointment_old.ts`:
one UPDATE setting all eligible rows to CANCELLED with
`cancelled_at = CURRENT_TIMESTAMP`, `RETURNING *` (the returned rows are
the updated ones). -/
def cancelExpiredAppointments (db : DB) (now : Int) : List Appt × DB :=
  ((db.appts.filter (expireEligible now)).map (sweepUpdate now),
    { db with appts := db.appts.map (sweepUpdate now) })

end Appointment

/-! The mongoose rewrite (`src/models/Appointment.ts`) and the route layer
(`src/routes/appointments.ts`). -/

/-- A mongoose appointment document, per the `AppointmentSchema` of
`src/models/Appointment.ts` (the document `_id` is embedded as `id`;
`status` and the other schema fields are plain strings there). -/
structure MAppt where
  id : Nat
  patient_id : String
  doctor_id : String
  time_slot_id : String
  appointment_date : String
  appointment_time : String
  reason_for_visit : String
  consultation_type : String
  status : String
  notes : String
  cancellation_reason : String
  created_at : Int
  updated_at : Int
deriving DecidableEq, Repr

/-- The `allowedFields` list of `Appointment.update`. -/
def allowedFields : List String := ["status", "notes"]

/-- Applying one `$set` entry of the filtered update object to a document.
Only the two allowed keys name document fields the filter lets through. -/
def applyField (d : MAppt) (kv : String × String) : MAppt :=
  if kv.1 = "status" then { d with status := kv.2 }
  else if kv.1 = "notes" then { d with notes := kv.2 }
  else d

/-- Method `Appointment.update` of the mongoose `src/models/Appointment.ts`:
keeps only the `status`/`notes` keys of `updates`, errors with 400 when
nothing remains, then runs `findByIdAndUpdate` with the filtered object
plus `updated_at = new Date()`. The update object is a JS object, so its
keys are applied as a `$set`; duplicate keys cannot occur in a JS object,
and a duplicate in the embedded association list lets the later entry win,
matching `reduce`. -/
def update (store : List MAppt) (id : Nat)
    (updates : List (String × String)) (now : Int) :
    Except AppError MAppt × List MAppt :=
  let filtered := updates.filter (fun kv => allowedFields.contains kv.1)
  if filtered.isEmpty then
    (Except.error ⟨400, "No valid fields to update"⟩, store)
  else
    match store.find? (fun d => d.id == id) with
    | none => (Except.error ⟨404, "Appointment not found"⟩, store)
    | some doc =>
      let doc' := { filtered.foldl applyField doc with updated_at := now }
      (Except.ok doc',
        store.map (fun d => if d.id == id then doc' else d))

/-- Hex-digit test matching the character classes of the route layer's
UUID regular expression (`[0-9a-f]` with the `i` flag). -/
def isHexDigit (c : Char) : Bool :=
  (decide ('0' ≤ c) && decide (c ≤ '9')) ||
  (decide ('a' ≤ c) && decide (c ≤ 'f')) ||
  (decide ('A' ≤ c) && decide (c ≤ 'F'))

/-- Helper `isValidUUID` of `src/routes/appointments.ts`: the anchored
case-insensitive pattern 8-4-4-4-12 of hex digits with hyphens at
positions 8, 13, 18 and 23. -/
def isValidUUID (s : String) : Bool :=
  s.data.length == 36 &&
  (List.range 36).all (fun i =>
    let c := s.data.getD i ' '
    if i == 8 || i == 13 || i == 18 || i == 23 then c == '-'
    else isHexDigit c)

/-- The JSON body a route sends (HTTP status plus the success envelope). -/
structure ApiResponse where
  httpStatus : Nat
  success : Bool
  message : String
  data : List MAppt
deriving DecidableEq, Repr

/-- Method `Appointment.getPatientAppointments` of the mongoose model: documents
with the given `patient_id`, optionally restricted to one status (the
model's sort by `appointment_date` is irrelevant to the properties below
and omitted). -/
def getPatientAppointments (docs : List MAppt) (patientId : String)
    (status : Option String) : List MAppt :=
  docs.filter (fun a =>
    a.patient_id == patientId &&
      match status with
      | none => true
      | some st => a.status == st)

/-- Method `Appointment.getDoctorAppointments` of the mongoose model: documents
with the given `doctor_id`, optionally restricted to one date. -/
def getDoctorAppointments (docs : List MAppt) (doctorId : String)
    (date : Option String) : List MAppt :=
  docs.filter (fun a =>
    a.doctor_id == doctorId &&
      match date with
      | none => true
      | some dt => a.appointment_date == dt)

/-- Route `GET /api/appointments/patient/:patientId`: a non-UUID id short-circuits
to a 200 response with an empty list; otherwise the store is queried. -/
def patientAppointmentsRoute (docs : List MAppt) (patientId : String)
    (status : Option String) : ApiResponse :=
  if !(isValidUUID patientId) then
    ⟨200, true, "Appointments retrieved successfully", []⟩
  else
    ⟨200, true, "Appointments retrieved successfully",
      getPatientAppointments docs patientId status⟩

/-- Route `GET /api/appointments/doctor/:doctorId`: same short-circuit shape. -/
def doctorAppointmentsRoute (docs : List MAppt) (doctorId : String)
    (date : Option String) : ApiResponse :=
  if !(isValidUUID doctorId) then
    ⟨200, true, "Appointments retrieved successfully", []⟩
  else
    ⟨200, true, "Appointments retrieved successfully",
      getDoctorAppointments docs doctorId date⟩

/-- State-machine edges of the specification (modelled from the spec:
"Legal edges: PENDING→CONFIRMED, PENDING→CANCELLED, CONFIRMED→CANCELLED,
CONFIRMED→COMPLETED"); stated here only to compare the code's transitions
against it. -/
def legalEdge : ApptStatus → ApptStatus → Bool
  | ApptStatus.PENDING, ApptStatus.CONFIRMED => true
  | ApptStatus.PENDING, ApptStatus.CANCELLED => true
  | ApptStatus.CONFIRMED, ApptStatus.CANCELLED => true
  | ApptStatus.CONFIRMED, ApptStatus.COMPLETED => true
  | _, _ => false

/-! ### Specification-side predicates -/

/-- The TimeSlot invariant of the specification: bookings bounded by the
capacity, and status BOOKED exactly at full capacity unless the slot is
administratively BLOCKED. The data model also fixes `max_capacity ≥ 1`
(TimeSlot attribute "maximum capacity (integer ≥ 1)"). -/
def SlotInv (s : TimeSlot) : Prop :=
  1 ≤ s.max_capacity ∧ 0 ≤ s.current_bookings ∧
    s.current_bookings ≤ s.max_capacity ∧
    (s.status ≠ SlotStatus.BLOCKED →
      (s.status = SlotStatus.BOOKED ↔ s.current_bookings = s.max_capacity))

instance (s : TimeSlot) : Decidable (SlotInv s) := by
  unfold SlotInv; infer_instance

/-- Modelled from the spec: the effect ExpireSweep is claimed to have on a
single appointment row — cancel it exactly when it is PENDING with
`expires_at` before now, leave it untouched otherwise. Stated to compare
the code's sweep against the claim. -/
def sweepSpecUpdate (now : Int) (a : Appt) : Appt :=
  if a.status = ApptStatus.PENDING ∧ a.expires_at < now then
    { a with status := ApptStatus.CANCELLED, cancelled_at := some now }
  else a

/-- The frame of the mongoose `update`: agreement on every document field
other than `status`, `notes` and `updated_at`. -/
def SameFrame (a b : MAppt) : Prop :=
  a.id = b.id ∧ a.patient_id = b.patient_id ∧ a.doctor_id = b.doctor_id ∧
    a.time_slot_id = b.time_slot_id ∧
    a.appointment_date = b.appointment_date ∧
    a.appointment_time = b.appointment_time ∧
    a.reason_for_visit = b.reason_for_visit ∧
    a.consultation_type = b.consultation_type ∧
    a.cancellation_reason = b.cancellation_reason ∧
    a.created_at = b.created_at

/-! ### Concrete states used to instantiate the theorems -/

/-- An AVAILABLE slot, capacity 2, one current booking. -/
def exSlot : TimeSlot := ⟨1, 1, 2, 1, SlotStatus.AVAILABLE⟩

/-- A PENDING appointment of patient 1 on `exSlot`, expiring at time 100. -/
def exPending : Appt :=
  ⟨7, 1, 1, 1, "2025-01-01", "09:00", "checkup", "in-person",
    ApptStatus.PENDING, 100, none, none, "PENDING"⟩

/-- A PENDING appointment far from expiry. -/
def exFresh : Appt :=
  ⟨8, 2, 1, 1, "2025-01-01", "09:00", "checkup", "in-person",
    ApptStatus.PENDING, 100000, none, none, "PENDING"⟩

/-- A COMPLETED appointment of patient 2 on `exSlot`. -/
def exCompleted : Appt :=
  ⟨9, 2, 1, 1, "2025-01-01", "09:00", "checkup", "in-person",
    ApptStatus.COMPLETED, 100, none, none, "PENDING"⟩

def exDB : DB := ⟨[exSlot], [exPending], [], 10⟩

/-- A fully booked capacity-1 slot in BOOKED status. -/
def exFullDB : DB := ⟨[⟨2, 1, 1, 1, SlotStatus.BOOKED⟩], [], [], 0⟩

/-- An empty capacity-1 slot: the smallest state exhibiting the
status-check/duplicate-check ordering. -/
def exCap1DB : DB := ⟨[⟨1, 1, 1, 0, SlotStatus.AVAILABLE⟩], [], [], 0⟩

def exDB7 : DB := ⟨[exSlot], [exCompleted], [], 10⟩

/-- A CANCELLED appointment of patient 1 on `exSlot`. -/
def exCancelled : Appt :=
  ⟨11, 1, 1, 1, "2025-01-01", "09:00", "checkup", "in-person",
    ApptStatus.CANCELLED, 100, none, some 40, "PENDING"⟩

def exDBC : DB := ⟨[exSlot], [exCancelled], [], 12⟩

def exDB8 : DB := ⟨[exSlot], [exPending, exFresh], [], 20⟩

/-- A mongoose appointment document. -/
def exMDoc : MAppt :=
  ⟨7, "p1", "d1", "s1", "2025-01-01", "09:00", "checkup", "in-person",
    "PENDING", "", "", 0, 0⟩

/-! ### Helper lemmas -/

/-- Searching with `find?` commutes with a map that does not disturb the search predicate. -/
theorem find_map_pres {α : Type} (f : α → α) (p : α → Bool)
    (h : ∀ a, p (f a) = p a) (l : List α) :
    (l.map f).find? p = (l.find? p).map f := by
  induction l with
  | nil => rfl
  | cons a l ih =>
    cases hpa : p a with
    | true => simp [List.find?_cons, hpa, h a]
    | false => simp [List.find?_cons, hpa, h a, ih]

/-- Searching with `find?` over a list updated only at rows matching `q`, when the update
does not disturb the search predicate on those rows. -/
theorem find_map_ite {α : Type} (q p : α → Bool) (g : α → α)
    (h : ∀ a, q a = true → p (g a) = p a) (l : List α) :
    (l.map (fun a => if q a then g a else a)).find? p =
      (l.find? p).map (fun a => if q a then g a else a) := by
  apply find_map_pres
  intro a
  by_cases hq : q a = true
  · rw [if_pos hq]
    exact h a hq
  · rw [if_neg hq]

/-- With duplicate-free slot ids (the table's primary key), any slot of the
database carrying the id a successful `findSlot` matched is that very slot. -/
theorem findSlot_unique {db : DB} {k d : Nat} {slot s : TimeSlot}
    (hnd : (db.slots.map TimeSlot.id).Nodup)
    (hf : findSlot db k d = some slot) (hs : s ∈ db.slots) (hid : s.id = k) :
    s = slot := by
  have hmem : slot ∈ db.slots := List.mem_of_find?_eq_some hf
  have hp := List.find?_some hf
  have hks : slot.id = k := by
    simp only [Bool.and_eq_true, beq_iff_eq] at hp
    exact hp.1
  exact List.inj_on_of_nodup_map hnd hs hmem (by rw [hid, hks])

/-! ### The slot ledger invariant -/

/-- The booking increment preserves the invariant when fired behind the
availability and capacity checks of `Appointment.create`. -/
theorem bookSlotUpdate_inv {s : TimeSlot} (h : SlotInv s)
    (hav : s.status = SlotStatus.AVAILABLE)
    (hcap : s.current_bookings < s.max_capacity) :
    SlotInv (bookSlotUpdate s) := by
  obtain ⟨h1, h2, h3, _⟩ := h
  unfold bookSlotUpdate SlotInv
  by_cases hfull : s.current_bookings + 1 ≥ s.max_capacity
  · rw [if_pos hfull]
    dsimp only
    refine ⟨h1, by omega, by omega,
      fun _ => ⟨fun _ => by omega, fun _ => rfl⟩⟩
  · rw [if_neg hfull, hav]
    dsimp only
    refine ⟨h1, by omega, by omega,
      fun _ => ⟨fun hba => absurd hba (by simp),
        fun heq => absurd heq (by omega)⟩⟩

/-- The cancellation decrement preserves the invariant unconditionally. -/
theorem cancelSlotUpdate_inv {s : TimeSlot} (h : SlotInv s) :
    SlotInv (cancelSlotUpdate s) := by
  obtain ⟨h1, h2, h3, _⟩ := h
  have hlt : s.current_bookings - 1 < s.max_capacity := by omega
  unfold cancelSlotUpdate SlotInv
  rw [if_pos hlt]
  dsimp only
  refine ⟨h1, le_max_right _ _, ?_, fun _ => ?_⟩
  · rw [max_def]; split <;> omega
  · constructor
    · intro hba; exact absurd hba (by simp)
    · intro heq
      exfalso
      rw [max_def] at heq
      revert heq
      split <;> omega

/-- Operation `confirm` never writes the `time_slots` table. -/
theorem confirm_slots_eq (db : DB) (now : Int) (i : Nat) :
    (Appointment.confirm db now i).2.slots = db.slots := by
  unfold Appointment.confirm
  cases findAppt db i with
  | none => rfl
  | some a => by_cases h1 : a.status ≠ ApptStatus.PENDING <;>
      by_cases h2 : a.expires_at < now <;> simp [h1, h2]

/-- Operation `cancelExpiredAppointments` never writes the `time_slots` table. -/
theorem sweep_slots_eq (db : DB) (now : Int) :
    (Appointment.cancelExpiredAppointments db now).2.slots = db.slots := rfl

/-- Shape of the slot table after `create`: either untouched (any error
path), or conditionally incremented at the checked slot. -/
theorem create_slots_cases (db : DB) (now : Int) (p d k : Nat)
    (dt tm rs ct : String) :
    (Appointment.create db now p d k dt tm rs ct).2.slots = db.slots ∨
    (∃ slot, findSlot db k d = some slot ∧
      slot.status = SlotStatus.AVAILABLE ∧
      slot.current_bookings < slot.max_capacity ∧
      (Appointment.create db now p d k dt tm rs ct).2.slots =
        db.slots.map (fun s => if s.id == k then bookSlotUpdate s else s)) := by
  unfold Appointment.create
  cases hf : findSlot db k d with
  | none => exact Or.inl rfl
  | some slot =>
    dsimp only
    by_cases h1 : slot.status ≠ SlotStatus.AVAILABLE
    · rw [if_pos h1]; exact Or.inl rfl
    · rw [if_neg h1]
      by_cases h2 : slot.current_bookings ≥ slot.max_capacity
      · rw [if_pos h2]; exact Or.inl rfl
      · rw [if_neg h2]
        by_cases h3 : db.appts.any (activeFor k p) = true
        · rw [if_pos h3]; exact Or.inl rfl
        · rw [if_neg h3]
          exact Or.inr ⟨slot, rfl, of_not_not h1, lt_of_not_ge h2, rfl⟩

/-- Shape of the slot table after `cancel`: either untouched (any error
path), or conditionally decremented at the appointment's slot id. -/
theorem cancel_slots_cases (db : DB) (now : Int) (i : Nat) (reason : String) :
    (Appointment.cancel db now i reason).2.slots = db.slots ∨
    (∃ x, (Appointment.cancel db now i reason).2.slots =
      db.slots.map (fun s => if s.id == x then cancelSlotUpdate s else s)) := by
  unfold Appointment.cancel
  cases hf : findAppt db i with
  | none => exact Or.inl rfl
  | some a =>
    dsimp only
    by_cases h1 : a.status = ApptStatus.CANCELLED
    · rw [if_pos h1]; exact Or.inl rfl
    · rw [if_neg h1]
      exact Or.inr ⟨a.time_slot_id, rfl⟩

/-- C1: for every time slot and after every core operation (Book, Confirm,
Cancel, ExpireSweep), the slot invariant `0 ≤ current_bookings ≤
max_capacity` still holds and the status is BOOKED exactly when
`current_bookings = max_capacity` unless the slot is BLOCKED (given
duplicate-free slot ids, the table's primary key). -/
theorem slot_invariant_preserved (db : DB) (now : Int)
    (p d k i : Nat) (dt tm rs ct reason : String)
    (hnd : (db.slots.map TimeSlot.id).Nodup)
    (hinv : ∀ s ∈ db.slots, SlotInv s) :
    (∀ s ∈ (Appointment.create db now p d k dt tm rs ct).2.slots, SlotInv s) ∧
    (∀ s ∈ (Appointment.confirm db now i).2.slots, SlotInv s) ∧
    (∀ s ∈ (Appointment.cancel db now i reason).2.slots, SlotInv s) ∧
    (∀ s ∈ (Appointment.cancelExpiredAppointments db now).2.slots, SlotInv s)
    := by
  refine ⟨?_, ?_, ?_, ?_⟩
  · -- Book
    rcases create_slots_cases db now p d k dt tm rs ct with
      heq | ⟨slot, hf, hav, hlt, heq⟩
    · rw [heq]; exact hinv
    · rw [heq]
      intro s hs
      rw [List.mem_map] at hs
      obtain ⟨s0, hs0, rfl⟩ := hs
      by_cases hk : s0.id = k
      · rw [if_pos (by simpa using hk)]
        have hs0eq : s0 = slot := findSlot_unique hnd hf hs0 hk
        subst hs0eq
        exact bookSlotUpdate_inv (hinv s0 hs0) hav hlt
      · rw [if_neg (by simpa using hk)]
        exact hinv s0 hs0
  · -- Confirm
    rw [confirm_slots_eq]; exact hinv
  · -- Cancel
    rcases cancel_slots_cases db now i reason with heq | ⟨x, heq⟩
    · rw [heq]; exact hinv
    · rw [heq]
      intro s hs
      rw [List.mem_map] at hs
      obtain ⟨s0, hs0, rfl⟩ := hs
      by_cases hk : s0.id = x
      · rw [if_pos (by simpa using hk)]
        exact cancelSlotUpdate_inv (hinv s0 hs0)
      · rw [if_neg (by simpa using hk)]
        exact hinv s0 hs0
  · -- ExpireSweep
    rw [sweep_slots_eq]; exact hinv

theorem bookSlotUpdate_id (s : TimeSlot) : (bookSlotUpdate s).id = s.id := rfl

theorem bookSlotUpdate_doctor (s : TimeSlot) :
    (bookSlotUpdate s).doctor_id = s.doctor_id := rfl

theorem cancelSlotUpdate_id (s : TimeSlot) :
    (cancelSlotUpdate s).id = s.id := rfl

/-- C2: a Book call on an existing slot that is not AVAILABLE, or whose
bookings have reached capacity, fails with one of the two SlotUnavailable
errors and returns the database unchanged (the transaction rolls back):
no appointment row is inserted and the slot row is not written. -/
theorem book_unavailable_fails (db : DB) (now : Int) (p d k : Nat)
    (dt tm rs ct : String) (slot : TimeSlot)
    (hf : findSlot db k d = some slot)
    (hbad : slot.status ≠ SlotStatus.AVAILABLE ∨
      slot.current_bookings ≥ slot.max_capacity) :
    Appointment.create db now p d k dt tm rs ct =
      (Except.error ⟨400, "This slot is no longer available"⟩, db) ∨
    Appointment.create db now p d k dt tm rs ct =
      (Except.error ⟨400, "This slot is fully booked"⟩, db) := by
  unfold Appointment.create
  rw [hf]
  dsimp only
  by_cases h1 : slot.status ≠ SlotStatus.AVAILABLE
  · rw [if_pos h1]; exact Or.inl rfl
  · rw [if_neg h1]
    have h2 : slot.current_bookings ≥ slot.max_capacity := hbad.resolve_left h1
    rw [if_pos h2]
    exact Or.inr rfl

/-- C3: a successful Book call returns an appointment in status PENDING
whose `expires_at` is its creation instant plus the 5-minute window
(`CURRENT_TIMESTAMP + INTERVAL '5 minutes'`, the source's fixed window,
matching the spec default), and the booked slot's `current_bookings`
afterwards is exactly one more than before. -/
theorem book_success_pending_expiry (db : DB) (now : Int) (p d k : Nat)
    (dt tm rs ct : String) (slot : TimeSlot)
    (hf : findSlot db k d = some slot)
    (hok : (Appointment.create db now p d k dt tm rs ct).1.isOk = true) :
    (Appointment.create db now p d k dt tm rs ct).1.map Appt.status =
      Except.ok ApptStatus.PENDING ∧
    (Appointment.create db now p d k dt tm rs ct).1.map Appt.expires_at =
      Except.ok (now + 5 * 60) ∧
    findSlot (Appointment.create db now p d k dt tm rs ct).2 k d =
      some (bookSlotUpdate slot) ∧
    (bookSlotUpdate slot).current_bookings = slot.current_bookings + 1 := by
  have hf' : db.slots.find? (fun s => s.id == k && s.doctor_id == d) =
      some slot := hf
  have hpred := List.find?_some hf'
  unfold Appointment.create at hok ⊢
  rw [hf] at hok ⊢
  dsimp only at hok ⊢
  by_cases h1 : slot.status ≠ SlotStatus.AVAILABLE
  · rw [if_pos h1] at hok; simp [Except.isOk, Except.toBool] at hok
  · rw [if_neg h1] at hok ⊢
    by_cases h2 : slot.current_bookings ≥ slot.max_capacity
    · rw [if_pos h2] at hok; simp [Except.isOk, Except.toBool] at hok
    · rw [if_neg h2] at hok ⊢
      by_cases h3 : db.appts.any (activeFor k p) = true
      · rw [if_pos h3] at hok; simp [Except.isOk, Except.toBool] at hok
      · rw [if_neg h3]
        refine ⟨rfl, rfl, ?_, rfl⟩
        show (db.slots.map
            (fun s => if s.id == k then bookSlotUpdate s else s)).find?
            (fun s => s.id == k && s.doctor_id == d) = some (bookSlotUpdate slot)
        rw [find_map_pres]
        · rw [show db.slots.find? (fun s => s.id == k && s.doctor_id == d) =
              some slot from hf]
          rw [Option.map_some']
          rw [if_pos (by
            simp only [Bool.and_eq_true, beq_iff_eq] at hpred
            simpa using hpred.1)]
        · intro a
          by_cases ha : (a.id == k) = true
          · rw [if_pos ha]
            simp only [bookSlotUpdate_id, bookSlotUpdate_doctor]
          · rw [if_neg ha]

/-- C4 counterexample: on a capacity-1 slot the first Book by patient 1
succeeds and is not cancelled, yet the second Book of the same
(patient, slot) pair fails with the SlotUnavailable error — the slot went
BOOKED, and `create` checks slot status before the duplicate check — not
with the DuplicateBooking error the claim names. -/
theorem second_booking_not_duplicate_error :
    (Appointment.create exCap1DB 0 1 1 1 "2025-01-01" "09:00" "checkup"
        "in-person").1.map Appt.status = Except.ok ApptStatus.PENDING ∧
    (Appointment.create
        (Appointment.create exCap1DB 0 1 1 1 "2025-01-01" "09:00" "checkup"
          "in-person").2
        0 1 1 1 "2025-01-01" "09:00" "checkup" "in-person").1 =
      Except.error ⟨400, "This slot is no longer available"⟩ ∧
    ("This slot is no longer available" : String) ≠
      "Patient already has an appointment for this slot" :=
  ⟨rfl, rfl, by decide⟩

/-- C4 (amended): while an active (non-CANCELLED) appointment for the
(patient, slot) pair is stored, a second Book call for that pair always
fails and leaves the database unchanged; the error is DuplicateBooking
when the slot is still AVAILABLE below capacity, and SlotUnavailable
otherwise. -/
theorem second_booking_fails (db : DB) (now : Int) (p d k : Nat)
    (dt tm rs ct : String) (slot : TimeSlot)
    (hf : findSlot db k d = some slot)
    (hdup : db.appts.any (activeFor k p) = true) :
    (Appointment.create db now p d k dt tm rs ct).2 = db ∧
    ((Appointment.create db now p d k dt tm rs ct).1 =
        Except.error ⟨400, "Patient already has an appointment for this slot"⟩ ∨
      (Appointment.create db now p d k dt tm rs ct).1 =
        Except.error ⟨400, "This slot is no longer available"⟩ ∨
      (Appointment.create db now p d k dt tm rs ct).1 =
        Except.error ⟨400, "This slot is fully booked"⟩) ∧
    (slot.status = SlotStatus.AVAILABLE →
      slot.current_bookings < slot.max_capacity →
      (Appointment.create db now p d k dt tm rs ct).1 =
        Except.error ⟨400, "Patient already has an appointment for this slot"⟩)
    := by
  unfold Appointment.create
  rw [hf]
  dsimp only
  by_cases h1 : slot.status ≠ SlotStatus.AVAILABLE
  · rw [if_pos h1]
    exact ⟨rfl, Or.inr (Or.inl rfl), fun hav _ => absurd hav h1⟩
  · rw [if_neg h1]
    by_cases h2 : slot.current_bookings ≥ slot.max_capacity
    · rw [if_pos h2]
      exact ⟨rfl, Or.inr (Or.inr rfl), fun _ hlt => absurd h2 (not_le.mpr hlt)⟩
    · rw [if_neg h2, if_pos hdup]
      exact ⟨rfl, Or.inl rfl, fun _ _ => rfl⟩

/-- C5 (code bug, evaluated): Confirm at time 200 of the PENDING
appointment 7 whose `expires_at` is 100 returns the Expired error, but the
thrown error reaches the catch block's ROLLBACK, which discards the
transaction's own auto-cancel UPDATE: the appointment is still PENDING
afterwards and the slot still holds `current_bookings` = 1 — neither the
persistent CANCELLED transition nor the capacity release the claim (and
the repo's SYSTEM_DESIGN.md) describe takes place. -/
theorem confirm_expired_rolls_back :
    Appointment.confirm exDB 200 7 =
      (Except.error ⟨400, "Appointment confirmation time has expired"⟩,
        exDB) ∧
    (findAppt exDB 7).map Appt.status = some ApptStatus.PENDING ∧
    (findAppt exDB 7).map Appt.expires_at = some 100 ∧
    (findSlotById exDB 1).map TimeSlot.current_bookings = some 1 :=
  ⟨rfl, rfl, rfl, rfl⟩

/-- Operation `cancel` on a found, not-yet-cancelled appointment: the exact result. -/
theorem cancel_ok_shape (db : DB) (now : Int) (i : Nat) (reason : String)
    (appt : Appt) (ha : findAppt db i = some appt)
    (hst : appt.status ≠ ApptStatus.CANCELLED) :
    Appointment.cancel db now i reason =
      (Except.ok
        { appt with status := ApptStatus.CANCELLED, cancelled_at := some now },
        { db with
          appts := db.appts.map (fun a =>
            if a.id == i then
              { a with status := ApptStatus.CANCELLED, cancelled_at := some now }
            else a),
          slots := db.slots.map (fun s =>
            if s.id == appt.time_slot_id then cancelSlotUpdate s else s),
          audit := db.audit ++
            [⟨i, "CANCELLED", some (statusName appt.status),
              some ("CANCELLED"), some reason⟩] }) := by
  have ha' : db.appts.find? (fun a => a.id == i) = some appt := ha
  have hpa := List.find?_some ha'
  unfold Appointment.cancel
  rw [ha]
  dsimp only
  rw [if_neg hst, if_pos hpa]

/-- Operation `cancel` on an already-CANCELLED appointment: AlreadyCancelled error,
database unchanged. -/
theorem cancel_already_cancelled (db : DB) (now : Int) (i : Nat)
    (reason : String) (appt : Appt) (ha : findAppt db i = some appt)
    (hst : appt.status = ApptStatus.CANCELLED) :
    Appointment.cancel db now i reason =
      (Except.error ⟨400, "Appointment is already cancelled"⟩, db) := by
  unfold Appointment.cancel
  rw [ha]
  dsimp only
  rw [if_pos hst]

theorem cancelSlotUpdate_bookings (s : TimeSlot) :
    (cancelSlotUpdate s).current_bookings = max (s.current_bookings - 1) 0 :=
  rfl

/-- C6: Cancel of a PENDING or CONFIRMED (more generally, any
not-yet-cancelled) appointment cancels it and decrements its slot's
`current_bookings` by one, floored at zero; a second Cancel of the same
appointment fails with AlreadyCancelled and leaves the database — in
particular the slot's count — untouched. -/
theorem cancel_releases_capacity_once (db : DB) (now now2 : Int) (i : Nat)
    (reason reason2 : String) (appt : Appt) (slot : TimeSlot)
    (ha : findAppt db i = some appt)
    (hst : appt.status ≠ ApptStatus.CANCELLED)
    (hs : findSlotById db appt.time_slot_id = some slot) :
    (Appointment.cancel db now i reason).1 =
      Except.ok
        { appt with status := ApptStatus.CANCELLED, cancelled_at := some now }
      ∧
    findAppt (Appointment.cancel db now i reason).2 i =
      some
        { appt with status := ApptStatus.CANCELLED, cancelled_at := some now }
      ∧
    findSlotById (Appointment.cancel db now i reason).2 appt.time_slot_id =
      some (cancelSlotUpdate slot) ∧
    (cancelSlotUpdate slot).current_bookings =
      max (slot.current_bookings - 1) 0 ∧
    Appointment.cancel (Appointment.cancel db now i reason).2 now2 i reason2 =
      (Except.error ⟨400, "Appointment is already cancelled"⟩,
        (Appointment.cancel db now i reason).2) := by
  have ha' : db.appts.find? (fun a => a.id == i) = some appt := ha
  have hpa := List.find?_some ha'
  have hs' : db.slots.find? (fun s => s.id == appt.time_slot_id) =
      some slot := hs
  have hps := List.find?_some hs'
  have hsh := cancel_ok_shape db now i reason appt ha hst
  have hwrA := find_map_ite (fun a => a.id == i) (fun a => a.id == i)
    (fun a =>
      { a with status := ApptStatus.CANCELLED, cancelled_at := some now })
    (fun a _ => rfl) db.appts
  have hwrS := find_map_ite (fun s => s.id == appt.time_slot_id)
    (fun s => s.id == appt.time_slot_id) cancelSlotUpdate
    (fun s _ => by simp only [cancelSlotUpdate_id]) db.slots
  have happts : findAppt (Appointment.cancel db now i reason).2 i =
      some { appt with status := ApptStatus.CANCELLED, cancelled_at := some now } := by
    rw [hsh]
    unfold findAppt
    dsimp only
    rw [hwrA, ha', Option.map_some', if_pos hpa]
  refine ⟨by rw [hsh], happts, ?_, rfl, ?_⟩
  · rw [hsh]
    unfold findSlotById
    dsimp only
    rw [hwrS, hs', Option.map_some', if_pos hps]
  · exact cancel_already_cancelled _ now2 i reason2 _ happts rfl

/-- Operation `confirm` on a found, non-PENDING appointment: InvalidState error with
the appointment's current status in the message, database unchanged. -/
theorem confirm_not_pending (db : DB) (now : Int) (i : Nat) (appt : Appt)
    (ha : findAppt db i = some appt)
    (hst : appt.status ≠ ApptStatus.PENDING) :
    Appointment.confirm db now i =
      (Except.error
        ⟨400, "Cannot confirm appointment with status: " ++
          statusName appt.status⟩, db) := by
  unfold Appointment.confirm
  rw [ha]
  dsimp only
  rw [if_pos hst]

/-- C7 counterexample: Cancel of the COMPLETED appointment 9 is accepted
and performs the COMPLETED→CANCELLED status change, although that edge is
not among the specification's legal transitions (COMPLETED is terminal),
so the operation neither rejects it with InvalidTransition nor leaves the
status unchanged. -/
theorem completed_cancel_not_rejected :
    (Appointment.cancel exDB7 0 9 "no-show").1.map Appt.status =
      Except.ok ApptStatus.CANCELLED ∧
    (findAppt exDB7 9).map Appt.status = some ApptStatus.COMPLETED ∧
    legalEdge ApptStatus.COMPLETED ApptStatus.CANCELLED = false :=
  ⟨rfl, rfl, rfl⟩

/-- C7 (amended): Confirm performs only the legal edge PENDING→CONFIRMED
and rejects every non-PENDING appointment with the InvalidState error,
leaving the database unchanged; Cancel moves any not-yet-cancelled
appointment to CANCELLED and rejects only CANCELLED ones with
AlreadyCancelled — so the illegal edge COMPLETED→CANCELLED is not
rejected. -/
theorem transition_checks_as_implemented (db : DB) (now : Int) (i : Nat)
    (reason : String) (appt : Appt) (ha : findAppt db i = some appt) :
    (appt.status ≠ ApptStatus.PENDING →
      Appointment.confirm db now i =
        (Except.error
          ⟨400, "Cannot confirm appointment with status: " ++
            statusName appt.status⟩, db)) ∧
    ((Appointment.confirm db now i).1.isOk = true →
      appt.status = ApptStatus.PENDING ∧
      (Appointment.confirm db now i).1.map Appt.status =
        Except.ok ApptStatus.CONFIRMED ∧
      legalEdge appt.status ApptStatus.CONFIRMED = true) ∧
    ((Appointment.cancel db now i reason).1.isOk = true →
      appt.status ≠ ApptStatus.CANCELLED ∧
      (Appointment.cancel db now i reason).1.map Appt.status =
        Except.ok ApptStatus.CANCELLED) ∧
    (appt.status = ApptStatus.CANCELLED →
      Appointment.cancel db now i reason =
        (Except.error ⟨400, "Appointment is already cancelled"⟩, db)) := by
  have ha' : db.appts.find? (fun a => a.id == i) = some appt := ha
  have hpa := List.find?_some ha'
  refine ⟨fun hst => confirm_not_pending db now i appt ha hst, ?_, ?_,
    fun hst => cancel_already_cancelled db now i reason appt ha hst⟩
  · intro hok
    by_cases hst : appt.status = ApptStatus.PENDING
    · refine ⟨hst, ?_, by rw [hst]; rfl⟩
      unfold Appointment.confirm at hok ⊢
      rw [ha] at hok ⊢
      dsimp only at hok ⊢
      rw [if_neg (by simpa using hst)] at hok ⊢
      by_cases hexp : appt.expires_at < now
      · rw [if_pos hexp] at hok
        simp [Except.isOk, Except.toBool] at hok
      · rw [if_neg hexp] at hok ⊢
        rw [if_pos hpa]
        rfl
    · rw [confirm_not_pending db now i appt ha hst] at hok
      simp [Except.isOk, Except.toBool] at hok
  · intro hok
    by_cases hst : appt.status = ApptStatus.CANCELLED
    · rw [cancel_already_cancelled db now i reason appt ha hst] at hok
      simp [Except.isOk, Except.toBool] at hok
    · refine ⟨hst, ?_⟩
      rw [cancel_ok_shape db now i reason appt ha hst]
      rfl

/-- The sweep's SQL eligibility clause, unfolded to a proposition. -/
theorem expireEligible_iff (now : Int) (a : Appt) :
    Appointment.expireEligible now a = true ↔
      (a.status = ApptStatus.PENDING ∧ a.expires_at < now ∧
        a.cancelled_at = none) := by
  simp [Appointment.expireEligible, and_assoc]

/-- A row the sweep has written is never eligible again, and an ineligible
row is untouched. -/
theorem sweepUpdate_not_eligible (now : Int) (a : Appt) :
    Appointment.expireEligible now (Appointment.sweepUpdate now a) = false
    := by
  unfold Appointment.sweepUpdate
  by_cases he : Appointment.expireEligible now a = true
  · rw [if_pos he]
    simp [Appointment.expireEligible]
  · rw [if_neg he]
    simpa using he

/-- C8: on a database whose PENDING rows have no `cancelled_at` (the shape
every reachable state has), the sweep at time `now` cancels exactly the
PENDING appointments with `expires_at < now`, stamping
`cancelled_at = now`, and leaves every other appointment unchanged; a
second sweep at the same `now` returns zero cancelled rows and leaves the
database exactly as the first sweep left it. -/
theorem expire_sweep_exact_and_idempotent (db : DB) (now : Int)
    (hclean : ∀ a ∈ db.appts,
      a.status = ApptStatus.PENDING → a.cancelled_at = none) :
    (Appointment.cancelExpiredAppointments db now).2.appts =
      db.appts.map (sweepSpecUpdate now) ∧
    (Appointment.cancelExpiredAppointments
        (Appointment.cancelExpiredAppointments db now).2 now).1 = [] ∧
    (Appointment.cancelExpiredAppointments
        (Appointment.cancelExpiredAppointments db now).2 now).2 =
      (Appointment.cancelExpiredAppointments db now).2 := by
  have hcongr : ∀ a ∈ db.appts,
      Appointment.sweepUpdate now a = sweepSpecUpdate now a := by
    intro a hmem
    unfold Appointment.sweepUpdate sweepSpecUpdate
    by_cases hc : a.status = ApptStatus.PENDING ∧ a.expires_at < now
    · have hnone := hclean a hmem hc.1
      rw [if_pos ((expireEligible_iff now a).mpr ⟨hc.1, hc.2, hnone⟩),
        if_pos hc]
    · have he : ¬Appointment.expireEligible now a = true := by
        intro he
        obtain ⟨e1, e2, _⟩ := (expireEligible_iff now a).mp he
        exact hc ⟨e1, e2⟩
      rw [if_neg he, if_neg hc]
  have hgone : ∀ b ∈ (Appointment.cancelExpiredAppointments db now).2.appts,
      Appointment.expireEligible now b = false := by
    intro b hb
    have hb' : b ∈ db.appts.map (Appointment.sweepUpdate now) := hb
    rw [List.mem_map] at hb'
    obtain ⟨a, _, rfl⟩ := hb'
    exact sweepUpdate_not_eligible now a
  have hfil : (Appointment.cancelExpiredAppointments db now).2.appts.filter
      (Appointment.expireEligible now) = [] :=
    List.filter_eq_nil_iff.mpr (fun a ha => by simp [hgone a ha])
  have hfix : (Appointment.cancelExpiredAppointments db now).2.appts.map
        (Appointment.sweepUpdate now) =
      (Appointment.cancelExpiredAppointments db now).2.appts := by
    have hid : ∀ b ∈ (Appointment.cancelExpiredAppointments db now).2.appts,
        Appointment.sweepUpdate now b = id b := by
      intro b hb
      unfold Appointment.sweepUpdate
      rw [if_neg (by simp [hgone b hb])]
      rfl
    rw [List.map_congr_left hid, List.map_id]
  refine ⟨List.map_congr_left hcongr, ?_, ?_⟩
  · show ((Appointment.cancelExpiredAppointments db now).2.appts.filter
        (Appointment.expireEligible now)).map (Appointment.sweepUpdate now)
      = []
    rw [hfil]
    rfl
  · show { (Appointment.cancelExpiredAppointments db now).2 with
        appts := (Appointment.cancelExpiredAppointments db now).2.appts.map
          (Appointment.sweepUpdate now) } =
      (Appointment.cancelExpiredAppointments db now).2
    rw [hfix]

/-- Function `applyField` never writes outside `status`/`notes`. -/
theorem applyField_frame (d : MAppt) (kv : String × String) :
    SameFrame (applyField d kv) d := by
  unfold applyField SameFrame
  split_ifs <;> exact ⟨rfl, rfl, rfl, rfl, rfl, rfl, rfl, rfl, rfl, rfl⟩

theorem SameFrame_trans {a b c : MAppt} (h1 : SameFrame a b)
    (h2 : SameFrame b c) : SameFrame a c := by
  obtain ⟨x1, x2, x3, x4, x5, x6, x7, x8, x9, x10⟩ := h1
  obtain ⟨y1, y2, y3, y4, y5, y6, y7, y8, y9, y10⟩ := h2
  exact ⟨x1.trans y1, x2.trans y2, x3.trans y3, x4.trans y4, x5.trans y5,
    x6.trans y6, x7.trans y7, x8.trans y8, x9.trans y9, x10.trans y10⟩

theorem foldl_applyField_frame (l : List (String × String)) (d : MAppt) :
    SameFrame (l.foldl applyField d) d := by
  induction l generalizing d with
  | nil => exact ⟨rfl, rfl, rfl, rfl, rfl, rfl, rfl, rfl, rfl, rfl⟩
  | cons kv l ih =>
    rw [List.foldl_cons]
    exact SameFrame_trans (ih (applyField d kv)) (applyField_frame d kv)

/-- C9: the mongoose `update` ignores every key of `updates` outside
`status`/`notes` (calling it on the pre-filtered list gives the same
result); with no allowed key present it fails with the 400 "No valid
fields to update" error and leaves the store unchanged; and on success it
writes exactly the filtered fields plus `updated_at` into the matched
document — every other stored field of that document is unchanged
(`SameFrame`), and no other document is touched. -/
theorem update_touches_only_allowed (store : List MAppt) (id : Nat)
    (updates : List (String × String)) (now : Int) (doc : MAppt)
    (hfind : store.find? (fun d => d.id == id) = some doc) :
    update store id updates now =
      update store id
        (updates.filter (fun kv => allowedFields.contains kv.1)) now ∧
    (updates.filter (fun kv => allowedFields.contains kv.1) = [] →
      update store id updates now =
        (Except.error ⟨400, "No valid fields to update"⟩, store)) ∧
    ((update store id updates now).1.isOk = true →
      update store id updates now =
        (Except.ok
          { (updates.filter (fun kv => allowedFields.contains kv.1)).foldl
              applyField doc with updated_at := now },
          store.map (fun d =>
            if d.id == id then
              { (updates.filter (fun kv => allowedFields.contains kv.1)).foldl
                  applyField doc with updated_at := now }
            else d))) ∧
    SameFrame
      { (updates.filter (fun kv => allowedFields.contains kv.1)).foldl
          applyField doc with updated_at := now } doc := by
  refine ⟨?_, ?_, ?_, ?_⟩
  · unfold update
    rw [List.filter_filter]
    simp only [Bool.and_self]
  · intro hemp
    unfold update
    dsimp only
    rw [hemp]
    rfl
  · intro hok
    unfold update at hok ⊢
    dsimp only at hok ⊢
    by_cases hemp :
        ((updates.filter (fun kv => allowedFields.contains kv.1)).isEmpty)
          = true
    · rw [if_pos hemp] at hok
      simp [Except.isOk, Except.toBool] at hok
    · rw [if_neg hemp] at hok ⊢
      rw [hfind] at hok ⊢
  · exact SameFrame_trans
      ⟨rfl, rfl, rfl, rfl, rfl, rfl, rfl, rfl, rfl, rfl⟩
      (foldl_applyField_frame _ doc)

/-- C10: listing appointments for a non-UUID patient id (or doctor id)
returns HTTP 200 with an empty data list rather than an error, and the
response does not depend on the appointment store at all. -/
theorem non_uuid_listing_returns_empty (docs docs2 : List MAppt)
    (patientId doctorId : String) (status date : Option String)
    (hp : isValidUUID patientId = false)
    (hd : isValidUUID doctorId = false) :
    patientAppointmentsRoute docs patientId status =
      ⟨200, true, "Appointments retrieved successfully", []⟩ ∧
    patientAppointmentsRoute docs patientId status =
      patientAppointmentsRoute docs2 patientId status ∧
    doctorAppointmentsRoute docs doctorId date =
      ⟨200, true, "Appointments retrieved successfully", []⟩ ∧
    doctorAppointmentsRoute docs doctorId date =
      doctorAppointmentsRoute docs2 doctorId date := by
  unfold patientAppointmentsRoute doctorAppointmentsRoute
  rw [hp, hd]
  exact ⟨rfl, rfl, rfl, rfl⟩

/-! ### Concrete instantiations of the hypothesis-bearing theorems -/

/-- C1 instantiated: after patient 2 books the half-full `exSlot` at time
200, the resulting fully booked BOOKED slot still satisfies the ledger
invariant. -/
theorem slot_invariant_preserved_witness :
    SlotInv ⟨1, 1, 2, 2, SlotStatus.BOOKED⟩ :=
  (slot_invariant_preserved exDB 200 2 1 1 7 "2025-01-01" "09:00" "checkup"
    "in-person" "reason" (by decide) (by decide)).1
    ⟨1, 1, 2, 2, SlotStatus.BOOKED⟩ (by decide)

/-- C2 instantiated: booking the BOOKED, full slot 2 fails and leaves the
database unchanged. -/
theorem book_unavailable_fails_witness :
    Appointment.create exFullDB 0 1 1 2 "2025-01-01" "09:00" "checkup"
        "in-person" =
      (Except.error ⟨400, "This slot is no longer available"⟩, exFullDB) ∨
    Appointment.create exFullDB 0 1 1 2 "2025-01-01" "09:00" "checkup"
        "in-person" =
      (Except.error ⟨400, "This slot is fully booked"⟩, exFullDB) :=
  book_unavailable_fails exFullDB 0 1 1 2 "2025-01-01" "09:00" "checkup"
    "in-person" ⟨2, 1, 1, 1, SlotStatus.BOOKED⟩ rfl (Or.inl (by decide))

/-- C3 instantiated: patient 2's successful booking of `exSlot` at time 0
is PENDING, expires at 300, and raises the slot's count from 1 to 2. -/
theorem book_success_pending_expiry_witness :
    (Appointment.create exDB 0 2 1 1 "2025-01-01" "09:00" "checkup"
        "in-person").1.map Appt.status = Except.ok ApptStatus.PENDING ∧
    (Appointment.create exDB 0 2 1 1 "2025-01-01" "09:00" "checkup"
        "in-person").1.map Appt.expires_at = Except.ok (0 + 5 * 60) ∧
    findSlot (Appointment.create exDB 0 2 1 1 "2025-01-01" "09:00" "checkup"
        "in-person").2 1 1 = some (bookSlotUpdate exSlot) ∧
    (bookSlotUpdate exSlot).current_bookings = exSlot.current_bookings + 1 :=
  book_success_pending_expiry exDB 0 2 1 1 "2025-01-01" "09:00" "checkup"
    "in-person" exSlot rfl (by decide)

/-- C4 (amended) instantiated: patient 1, who already holds the PENDING
appointment 7 on the AVAILABLE half-full `exSlot`, gets the
DuplicateBooking error on rebooking, with the database unchanged. -/
theorem second_booking_fails_witness :
    (Appointment.create exDB 0 1 1 1 "2025-01-01" "09:00" "checkup"
        "in-person").1 =
      Except.error ⟨400, "Patient already has an appointment for this slot"⟩ ∧
    (Appointment.create exDB 0 1 1 1 "2025-01-01" "09:00" "checkup"
        "in-person").2 = exDB :=
  ⟨(second_booking_fails exDB 0 1 1 1 "2025-01-01" "09:00" "checkup"
      "in-person" exSlot rfl (by decide)).2.2 (by decide) (by decide),
    (second_booking_fails exDB 0 1 1 1 "2025-01-01" "09:00" "checkup"
      "in-person" exSlot rfl (by decide)).1⟩

/-- C6 instantiated: cancelling the PENDING appointment 7 at time 50
cancels it, drops `exSlot` to zero bookings, and a repeat cancel at time
60 fails with AlreadyCancelled without further changes. -/
theorem cancel_releases_capacity_once_witness :
    (Appointment.cancel exDB 50 7 "changed plans").1 =
      Except.ok
        { exPending with status := ApptStatus.CANCELLED, cancelled_at := some 50 }
      ∧
    findAppt (Appointment.cancel exDB 50 7 "changed plans").2 7 =
      some
        { exPending with status := ApptStatus.CANCELLED, cancelled_at := some 50 }
      ∧
    findSlotById (Appointment.cancel exDB 50 7 "changed plans").2
        exPending.time_slot_id = some (cancelSlotUpdate exSlot) ∧
    (cancelSlotUpdate exSlot).current_bookings =
      max (exSlot.current_bookings - 1) 0 ∧
    Appointment.cancel (Appointment.cancel exDB 50 7 "changed plans").2 60 7
        "again" =
      (Except.error ⟨400, "Appointment is already cancelled"⟩,
        (Appointment.cancel exDB 50 7 "changed plans").2) :=
  cancel_releases_capacity_once exDB 50 60 7 "changed plans" "again"
    exPending exSlot rfl (by decide) rfl

/-- C7 (amended) instantiated: confirming the COMPLETED appointment 9 is
rejected with the InvalidState error, and cancelling the CANCELLED
appointment 11 is rejected with AlreadyCancelled; both leave the database
unchanged. -/
theorem transition_checks_as_implemented_witness :
    Appointment.confirm exDB7 5 9 =
      (Except.error
        ⟨400, "Cannot confirm appointment with status: " ++
          statusName exCompleted.status⟩, exDB7) ∧
    Appointment.cancel exDBC 5 11 "again" =
      (Except.error ⟨400, "Appointment is already cancelled"⟩, exDBC) :=
  ⟨(transition_checks_as_implemented exDB7 5 9 "again" exCompleted
      (by decide)).1 (by decide),
    (transition_checks_as_implemented exDBC 5 11 "again" exCancelled
      rfl).2.2.2 rfl⟩

/-- C8 instantiated: sweeping `exDB8` at time 200 cancels exactly the
expired PENDING appointment 7 and not the fresh appointment 8, and a
second sweep at 200 cancels nothing and changes nothing. -/
theorem expire_sweep_exact_and_idempotent_witness :
    (Appointment.cancelExpiredAppointments exDB8 200).2.appts =
      exDB8.appts.map (sweepSpecUpdate 200) ∧
    (Appointment.cancelExpiredAppointments
        (Appointment.cancelExpiredAppointments exDB8 200).2 200).1 = [] ∧
    (Appointment.cancelExpiredAppointments
        (Appointment.cancelExpiredAppointments exDB8 200).2 200).2 =
      (Appointment.cancelExpiredAppointments exDB8 200).2 :=
  expire_sweep_exact_and_idempotent exDB8 200 (by decide)

/-- C9 instantiated: updating document 7 with a `status` value plus an
unknown key applies exactly as the pre-filtered update does and keeps the
whole frame; an update carrying only unknown keys fails with the 400
error and changes nothing. -/
theorem update_touches_only_allowed_witness :
    update [exMDoc] 7 [("status", "CONFIRMED"), ("hacked", "yes")] 5 =
      update [exMDoc] 7
        ([("status", "CONFIRMED"), ("hacked", "yes")].filter
          (fun kv => allowedFields.contains kv.1)) 5 ∧
    SameFrame
      { ([("status", "CONFIRMED"), ("hacked", "yes")].filter
          (fun kv => allowedFields.contains kv.1)).foldl applyField exMDoc
        with updated_at := 5 } exMDoc ∧
    update [exMDoc] 7 [("hacked", "yes")] 5 =
      (Except.error ⟨400, "No valid fields to update"⟩, [exMDoc]) :=
  ⟨(update_touches_only_allowed [exMDoc] 7
      [("status", "CONFIRMED"), ("hacked", "yes")] 5 exMDoc rfl).1,
    (update_touches_only_allowed [exMDoc] 7
      [("status", "CONFIRMED"), ("hacked", "yes")] 5 exMDoc rfl).2.2.2,
    (update_touches_only_allowed [exMDoc] 7 [("hacked", "yes")] 5 exMDoc
      rfl).2.1 rfl⟩

/-- C10 instantiated: the demo ids "pat001" and "doctor001" are not UUIDs,
so both listings return 200 with an empty list, identically on an empty
store and on a store holding a document. -/
theorem non_uuid_listing_returns_empty_witness :
    patientAppointmentsRoute [] "pat001" none =
      ⟨200, true, "Appointments retrieved successfully", []⟩ ∧
    patientAppointmentsRoute [] "pat001" none =
      patientAppointmentsRoute [exMDoc] "pat001" none ∧
    doctorAppointmentsRoute [] "doctor001" none =
      ⟨200, true, "Appointments retrieved successfully", []⟩ ∧
    doctorAppointmentsRoute [] "doctor001" none =
      doctorAppointmentsRoute [exMDoc] "doctor001" none :=
  non_uuid_listing_returns_empty [] [exMDoc] "pat001" "doctor001" none none
    (by decide) (by decide)

end Healthcare
